import Mathlib

/-!
Verification development for the rai repository (tlee933/rai).

This file gives a shallow embedding, in Lean, of the parts of the program
that the checked properties are about:

* src/mcp_client.py — the JSON-RPC peer connection (MCPServer) and the
  multi-peer registry (MCPClient);
* src/intent_classifier.py — the ordered regex pattern table and classify;
* src/rai.py — the dispatch router (process_query and the gpu intent
  handler) and the LLM fallback (_query_llm).

Python's in-place mutation is modelled by explicit state passing: each
operation returns its Python return value (or the exception it raises) as
an Except, together with the post-state of every object it mutates.  A
child process's standard streams are modelled by a PeerWire value: the
ordered list of JSON lines still unread on its stdout, and the ordered
list of JSON lines written so far to its stdin.  JSON text is modelled by
its parsed value (JVal); serialization and re-parsing of well-formed lines
is the identity and is elided.
-/

/-- A JSON value (the result of Python json.loads / argument of json.dumps). -/
inductive JVal : Type
  | str (s : String)
  | num (n : Int)
  | bool (b : Bool)
  | null
  | arr (xs : List JVal)
  | obj (fields : List (String × JVal))

/-- Python dict.get(k): first field with the given key, if the value is an
object; none otherwise. -/
def JVal.get? : JVal → String → Option JVal
  | .obj fields, k => (fields.find? (fun kv => kv.1 == k)).map (fun kv => kv.2)
  | _, _ => none

/-- Python dict.get(k, d): lookup with a default. -/
def JVal.getD (v : JVal) (k : String) (d : JVal) : JVal :=
  (v.get? k).getD d

/-- Coerce a JSON value to the list it denotes (Python iteration over a
list value; non-lists do not occur on the modelled paths). -/
def JVal.asArr : JVal → List JVal
  | .arr xs => xs
  | _ => []

/-- The exceptions raised by the modelled Python code. -/
inductive PyError : Type
  /-- RuntimeError(f"Server {name} not started") -/
  | notStarted (name : String)
  /-- RuntimeError(f"Server {name} closed connection") — readline gave EOF. -/
  | closedConnection (name : String)
  /-- Exception(f"MCP error: {response['error']}") — peer answered with an
  error object. -/
  | mcpError (e : JVal)
  /-- ValueError(f"Unknown server: {name}") from MCPClient.call_tool. -/
  | unknownServer (name : String)
  /-- subprocess.TimeoutExpired from process.wait(timeout=5) in MCPServer.stop. -/
  | stopTimeout (name : String)

/-- MCPServerConfig (src/mcp_client.py:18-24). -/
structure MCPServerConfig : Type where
  name : String
  command : String
  args : List String
  env : Option (List (String × String)) := none
deriving DecidableEq, Repr

/-- The mutable state of an MCPServer object (src/mcp_client.py:27-36).
`started` models whether self.process is set (a live Popen handle). -/
structure MCPServer : Type where
  config : MCPServerConfig
  started : Bool
  tools : List JVal
  requestId : Nat

/-- MCPServer.__init__ (src/mcp_client.py:30-35): no process, empty tool
list, request counter 0. -/
def MCPServer.init (config : MCPServerConfig) : MCPServer :=
  { config := config, started := false, tools := [], requestId := 0 }

/-- The two standard streams of one peer process: lines still unread on
its stdout (in arrival order), and lines written so far to its stdin. -/
structure PeerWire : Type where
  incoming : List JVal
  written : List JVal

/-- The JSON-RPC request object built by _send_request
(src/mcp_client.py:91-96). -/
def reqJson (rid : Nat) (method : String) (params : JVal) : JVal :=
  .obj [("jsonrpc", .str "2.0"), ("id", .num rid), ("method", .str method),
        ("params", params)]

/-- The JSON-RPC notification object built by _send_notification
(src/mcp_client.py:120-124): same shape but no id field. -/
def notifJson (method : String) (params : JVal) : JVal :=
  .obj [("jsonrpc", .str "2.0"), ("method", .str method), ("params", params)]

/-- The value _send_request produces from the one line it reads
(src/mcp_client.py:104-113): EOF raises, an error member raises, otherwise
response.get("result", {}) is returned. -/
def responseResult (name : String) (incoming : List JVal) : Except PyError JVal :=
  match incoming with
  | [] => .error (.closedConnection name)
  | resp :: _ =>
    match resp.get? "error" with
    | some e => .error (.mcpError e)
    | none => .ok (resp.getD "result" (.obj []))

/-- MCPServer._send_request (src/mcp_client.py:85-113).  If the process is
not started it raises at once, touching nothing.  Otherwise it increments
self._request_id, writes the request carrying the new id, and reads exactly
one line (which at EOF consumes nothing).  The post-state is returned in
every case, since Python mutates the object in place before any raise. -/
def sendRequestS (srv : MCPServer) (wire : PeerWire) (method : String)
    (params : JVal) : Except PyError JVal × MCPServer × PeerWire :=
  if srv.started then
    (responseResult srv.config.name wire.incoming,
     { srv with requestId := srv.requestId + 1 },
     { wire with
        written := wire.written ++ [reqJson (srv.requestId + 1) method params],
        incoming := wire.incoming.drop 1 })
  else
    (.error (.notStarted srv.config.name), srv, wire)

/-- MCPServer._send_notification (src/mcp_client.py:115-129): writes one
id-less line, reads nothing, leaves the object state unchanged. -/
def sendNotificationS (srv : MCPServer) (wire : PeerWire) (method : String)
    (params : JVal) : Except PyError Unit × MCPServer × PeerWire :=
  if srv.started then
    (.ok (), srv, { wire with written := wire.written ++ [notifJson method params] })
  else
    (.error (.notStarted srv.config.name), srv, wire)

/-- The params object of a tools/call request (src/mcp_client.py:78-81). -/
def toolsCallParams (toolName : String) (args : JVal) : JVal :=
  .obj [("name", .str toolName), ("arguments", args)]

/-- MCPServer.call_tool (src/mcp_client.py:74-83): one tools/call request,
then response.get("content", []) of its result. -/
def MCPServer.callToolS (srv : MCPServer) (wire : PeerWire) (toolName : String)
    (args : JVal) : Except PyError JVal × MCPServer × PeerWire :=
  match sendRequestS srv wire "tools/call" (toolsCallParams toolName args) with
  | (.error e, srv2, wire2) => (.error e, srv2, wire2)
  | (.ok res, srv2, wire2) => (.ok (res.getD "content" (.arr [])), srv2, wire2)

/-- The params of the initialize request (src/mcp_client.py:54-63). -/
def initializeParams : JVal :=
  .obj [("protocolVersion", .str "2024-11-05"),
        ("capabilities", .obj [("tools", .obj [])]),
        ("clientInfo", .obj [("name", .str "f3d0r4-ai"), ("version", .str "0.1.0")])]

/-- MCPServer.start (src/mcp_client.py:37-72): spawn the process (spawn
itself succeeding is the modelled case), send initialize, send the
initialized notification, request tools/list and store its tools array. -/
def MCPServer.start (srv : MCPServer) (wire : PeerWire) :
    Except PyError Unit × MCPServer × PeerWire :=
  match sendRequestS { srv with started := true } wire "initialize" initializeParams with
  | (.error e, srv2, wire2) => (.error e, srv2, wire2)
  | (.ok _, srv2, wire2) =>
    match sendNotificationS srv2 wire2 "initialized" (.obj []) with
    | (.error e, srv3, wire3) => (.error e, srv3, wire3)
    | (.ok _, srv3, wire3) =>
      match sendRequestS srv3 wire3 "tools/list" (.obj []) with
      | (.error e, srv4, wire4) => (.error e, srv4, wire4)
      | (.ok res, srv4, wire4) =>
        (.ok (), { srv4 with tools := (res.getD "tools" (.arr [])).asArr }, wire4)

/-- MCPServer.stop (src/mcp_client.py:131-136): no-op when no process;
otherwise terminate then wait(timeout=5), whose possible TimeoutExpired is
modelled by the clean flag (true: the process exits within the grace
period, false: wait raises). -/
def MCPServer.stop (srv : MCPServer) (clean : Bool) : Except PyError Unit :=
  if srv.started then
    (if clean then .ok () else .error (.stopTimeout srv.config.name))
  else .ok ()

/-- The state of an MCPClient (src/mcp_client.py:139-143): Python's dict
preserves insertion order and keeps keys unique, so self.servers is an
ordered association list. -/
structure MCPClient : Type where
  servers : List (String × MCPServer)

/-- Python dict assignment d[k] = v: replace in place when the key exists
(keeping its position), otherwise append at the end. -/
def dictSet (d : List (String × MCPServer)) (k : String) (v : MCPServer) :
    List (String × MCPServer) :=
  if d.any (fun kv => kv.1 == k) then
    d.map (fun kv => if kv.1 == k then (k, v) else kv)
  else d ++ [(k, v)]

/-- MCPClient.add_server (src/mcp_client.py:145-149): construct a fresh
MCPServer, start it (start failures propagate before the dict is touched),
then assign self.servers[config.name] = server. -/
def MCPClient.addServer (c : MCPClient) (config : MCPServerConfig)
    (wire : PeerWire) : Except PyError Unit × MCPClient × PeerWire :=
  match (MCPServer.init config).start wire with
  | (.error e, _, wire2) => (.error e, c, wire2)
  | (.ok _, srv, wire2) => (.ok (), ⟨dictSet c.servers config.name srv⟩, wire2)

/-- Does one catalog entry carry the given tool name
(tool["name"] == tool_name in src/mcp_client.py:182)? -/
def toolHasName (tool : JVal) (toolName : String) : Bool :=
  match tool.get? "name" with
  | some (.str s) => s == toolName
  | _ => false

/-- Does a server's discovered catalog contain the tool name? -/
def MCPServer.hasTool (srv : MCPServer) (toolName : String) : Bool :=
  srv.tools.any (fun tool => toolHasName tool toolName)

/-- MCPClient.find_tool (src/mcp_client.py:178-184): scan the servers in
registration order, and inside each its tools in catalog order; return the
(server name, tool name) pair at the first hit. -/
def MCPClient.findTool (c : MCPClient) (toolName : String) :
    Option (String × String) :=
  (c.servers.find? (fun p => p.2.hasTool toolName)).map (fun p => (p.1, toolName))

/-- MCPClient.call_tool (src/mcp_client.py:171-176): an unregistered
server name raises ValueError; otherwise the call is forwarded to that
server (wire is the named peer's stream pair). -/
def MCPClient.callToolC (c : MCPClient) (serverName toolName : String)
    (args : JVal) (wire : PeerWire) : Except PyError JVal × MCPClient × PeerWire :=
  match c.servers.find? (fun p => p.1 == serverName) with
  | none => (.error (.unknownServer serverName), c, wire)
  | some p =>
    match p.2.callToolS wire toolName args with
    | (r, srv2, wire2) => (r, ⟨dictSet c.servers serverName srv2⟩, wire2)

/-- The for-loop of MCPClient.stop_all (src/mcp_client.py:186-189): stop
each registered server in order; an exception from one stop propagates,
ending the loop.  Returns the names whose stop was invoked, in order, and
the propagated exception, if any. -/
def stopSweep : List (String × MCPServer) → (String → Bool) →
    List String × Option PyError
  | [], _ => ([], none)
  | p :: rest, clean =>
    match p.2.stop (clean p.1) with
    | .ok _ =>
      match stopSweep rest clean with
      | (names, e) => (p.1 :: names, e)
    | .error e => ([p.1], some e)

/-- MCPClient.stop_all (src/mcp_client.py:186-189); clean tells, per peer
name, whether that peer's process terminates within the grace period. -/
def MCPClient.stopAll (c : MCPClient) (clean : String → Bool) :
    List String × Option PyError :=
  stopSweep c.servers clean

/-!
The intent classifier (src/intent_classifier.py).

Each table entry is a Python regular expression compiled with re.IGNORECASE
and applied with Pattern.match (anchored at the start) to the stripped
query.  Every pattern in the table ends in a dollar anchor, so a match is a
match of the whole stripped query.  The patterns use only: case-insensitive
literals, the classes [\s-], \d, [^"] and the dot, concatenation,
alternation, greedy option (?:...)?, greedy star/plus and lazy plus over a
single-character class, and the capture groups 1 and 2.  The engine below
implements exactly these constructs with the backtracking priorities of
Python's re module: alternation prefers the left branch, greedy quantifiers
prefer longer matches, lazy quantifiers prefer shorter ones.
-/

/-- Python whitespace for str.strip and the regex class \s (ASCII range). -/
def isPyWs (c : Char) : Bool :=
  c == ' ' || c == '\t' || c == '\n' || c == '\r' || c == '\x0b' || c == '\x0c'

/-- Python str.strip(): drop leading and trailing whitespace. -/
def pyStrip (s : String) : String :=
  String.mk (((s.toList.dropWhile isPyWs).reverse.dropWhile isPyWs).reverse)

/-- The single-character classes occurring in the pattern table. -/
inductive CClass : Type
  | wsDash
  | digit
  | dot
  | notQuote
deriving DecidableEq, Repr

/-- Which characters a class accepts. -/
def CClass.test : CClass → Char → Bool
  | .wsDash, c => isPyWs c || c == '-'
  | .digit, c => c.isDigit
  | .dot, c => c != '\n'
  | .notQuote, c => c != '"'

/-- The capture groups of one match (the table uses groups 1 and 2 only).
A group that did not participate in the match holds none. -/
structure Caps : Type where
  g1 : Option String := none
  g2 : Option String := none
deriving DecidableEq, Repr

/-- Record the text of capture group i. -/
def Caps.setG (i : Nat) (s : String) (caps : Caps) : Caps :=
  if i == 1 then { caps with g1 := some s }
  else if i == 2 then { caps with g2 := some s }
  else caps

/-- The regex fragment language of the pattern table. -/
inductive Regex : Type
  | lit (s : String)
  | cls (c : CClass)
  | cat (a b : Regex)
  | alt (a b : Regex)
  | opt (a : Regex)
  | starC (c : CClass)
  | plusC (c : CClass)
  | plusLazyC (c : CClass)
  | grp (i : Nat) (a : Regex)
deriving DecidableEq, Repr

/-- Case-insensitive literal: strip the literal (given as a char list) from
the front of the input, comparing lowercased characters. -/
def ciStrip : List Char → List Char → Option (List Char)
  | [], cs => some cs
  | _ :: _, [] => none
  | l :: ls, c :: cs => if l.toLower == c.toLower then ciStrip ls cs else none

/-- Greedy star over a character class, in continuation-passing style:
prefer consuming one more accepted character, fall back to the
continuation at the current position. -/
def starGreedy (c : CClass) : List Char → Caps →
    (List Char → Caps → Option Caps) → Option Caps
  | [], caps, k => k [] caps
  | ch :: rest, caps, k =>
    if c.test ch then
      match starGreedy c rest caps k with
      | some r => some r
      | none => k (ch :: rest) caps
    else k (ch :: rest) caps

/-- Lazy plus over a character class: consume one accepted character, then
prefer handing over to the continuation, consuming more only on failure. -/
def plusLazy (c : CClass) : List Char → Caps →
    (List Char → Caps → Option Caps) → Option Caps
  | [], _, _ => none
  | ch :: rest, caps, k =>
    if c.test ch then
      match k rest caps with
      | some r => some r
      | none => plusLazy c rest caps k
    else none

/-- The backtracking matcher, in continuation-passing style.  The
continuation receives the unconsumed input and the captures so far; a
branch whose continuation fails is retried with the next preference. -/
def Regex.run : Regex → List Char → Caps →
    (List Char → Caps → Option Caps) → Option Caps
  | .lit s, cs, caps, k =>
    match ciStrip s.toList cs with
    | some rest => k rest caps
    | none => none
  | .cls c, cs, caps, k =>
    match cs with
    | [] => none
    | ch :: rest => if c.test ch then k rest caps else none
  | .cat a b, cs, caps, k => a.run cs caps (fun cs2 caps2 => b.run cs2 caps2 k)
  | .alt a b, cs, caps, k =>
    match a.run cs caps k with
    | some r => some r
    | none => b.run cs caps k
  | .opt a, cs, caps, k =>
    match a.run cs caps k with
    | some r => some r
    | none => k cs caps
  | .starC c, cs, caps, k => starGreedy c cs caps k
  | .plusC c, cs, caps, k =>
    match cs with
    | [] => none
    | ch :: rest => if c.test ch then starGreedy c rest caps k else none
  | .plusLazyC c, cs, caps, k => plusLazy c cs caps k
  | .grp i a, cs, caps, k =>
    a.run cs caps (fun cs2 caps2 =>
      k cs2 (caps2.setG i (String.mk (cs.take (cs.length - cs2.length)))))

/-- Pattern.match of a table pattern against a query: anchored at the
start by match, anchored at the end by the final dollar every table
pattern carries, hence a full match of the whole string. -/
def Regex.fullMatch (r : Regex) (s : String) : Option Caps :=
  r.run s.toList {} (fun rest caps => if rest.isEmpty then some caps else none)

/-- A parameter value of an Intent: the extractors produce strings, one
produces an int (port), and two can produce Python None (filter). -/
inductive PVal : Type
  | s (v : String)
  | i (n : Int)
  | none
deriving DecidableEq, Repr

/-- Intent (src/intent_classifier.py:12-17).  The params dict is modelled
as a key/value list in construction order. -/
structure Intent : Type where
  category : String
  action : String
  params : List (String × PVal)
deriving DecidableEq, Repr

/-- The action column of a table entry: a fixed string for every entry
except the git entry of line 49, whose action is m.group(1). -/
inductive ActionRule : Type
  | fixed (s : String)
  | fromG1
deriving DecidableEq, Repr

/-- Resolve the action (src/intent_classifier.py:167).  For the one
fromG1 entry, group 1 always participates when its pattern matches, so the
default is never read. -/
def applyAction : ActionRule → Caps → String
  | .fixed s, _ => s
  | .fromG1, caps => caps.g1.getD ""

/-- Python int() on a digit string (the port group matched onedigit-plus). -/
def pyInt (s : String) : Int := (s.toNat?.getD 0 : Nat)

/-- The distinct param-extraction lambdas of the table, one constructor
per lambda body. -/
inductive ExtractRule : Type
  | emptyE
  | pathG1
  | messageG1
  | searchE
  | serviceG1
  | filterOptG1
  | targetG1
  | argsG1
  | packageG1
  | portG1
deriving DecidableEq, Repr

/-- Apply an extraction lambda to the matched groups.  Python truthiness
of m.group(n): None and the empty string are falsy. -/
def applyExtract : ExtractRule → Caps → List (String × PVal)
  | .emptyE, _ => []
  | .pathG1, caps => [("path", .s (pyStrip (caps.g1.getD "")))]
  | .messageG1, caps => [("message", .s (caps.g1.getD ""))]
  | .searchE, caps =>
    [("pattern", .s (pyStrip (caps.g1.getD ""))),
     ("path", match caps.g2 with
              | some s => if s.isEmpty then .s "." else .s (pyStrip s)
              | none => .s ".")]
  | .serviceG1, caps => [("service", .s (pyStrip (caps.g1.getD "")))]
  | .filterOptG1, caps =>
    [("filter", match caps.g1 with
                | some s => if s.isEmpty then .none else .s (pyStrip s)
                | none => .none)]
  | .targetG1, caps =>
    [("target", match caps.g1 with
                | some s => if s.isEmpty then .s "all" else .s (pyStrip s)
                | none => .s "all")]
  | .argsG1, caps => [("args", .s (pyStrip (caps.g1.getD "")))]
  | .packageG1, caps => [("package", .s (pyStrip (caps.g1.getD "")))]
  | .portG1, caps => [("port", .i (pyInt (caps.g1.getD "")))]

/-- One row of IntentClassifier.PATTERNS: compiled pattern, category,
action rule, extraction rule. -/
structure PatternEntry : Type where
  regex : Regex
  category : String
  action : ActionRule
  extract : ExtractRule
deriving DecidableEq, Repr

/-- Right-nested alternation of fragments (a non-capturing group of
alternatives). -/
def rAlts : List Regex → Regex
  | [] => .lit ""
  | [r] => r
  | r :: rs => .alt r (rAlts rs)

/-- Concatenation of a fragment list. -/
def rCats : List Regex → Regex
  | [] => .lit ""
  | [r] => r
  | r :: rs => .cat r (rCats rs)

/-- A case-insensitive literal fragment. -/
def rlit (s : String) : Regex := .lit s

/-- The fragment of a star over the whitespace-or-dash class. -/
def ws0 : Regex := .starC .wsDash

/-- The fragment of a plus over the whitespace-or-dash class. -/
def ws1 : Regex := .plusC .wsDash

/-- The greedy dot-plus of the capture groups written as one-dot-plus. -/
def dotPlus : Regex := .plusC .dot

/-- The lazy dot-plus of the capture groups written dot-plus-question. -/
def dotPlusLazy : Regex := .plusLazyC .dot

/-- The greedy dot-star of the logs capture group. -/
def dotStar : Regex := .starC .dot

/-- The fragment show-or-get-or-check. -/
def sgc : Regex := rAlts [rlit "show", rlit "get", rlit "check"]

/-- The fragment show-or-list-or-get. -/
def slg : Regex := rAlts [rlit "show", rlit "list", rlit "get"]

/-- The fragment of the stats-with-optional-s alternative. -/
def statsWord : Regex := rCats [rlit "stat", .opt (rlit "s")]

/-- The fragment rpm, optional dash, ostree. -/
def rpmQOstree : Regex := rCats [rlit "rpm", .opt (rlit "-"), rlit "ostree"]

/-- src/intent_classifier.py:31 vram with optional verb and suffix. -/
def p01 : Regex :=
  rCats [sgc, ws0, .opt (rCats [rlit "gpu", ws0]), rlit "vram",
         .opt (rCats [ws0, rAlts [rlit "usage", statsWord]])]

/-- src/intent_classifier.py:34 the bare word vram. -/
def p02 : Regex := rlit "vram"

/-- src/intent_classifier.py:38 temperature queries. -/
def p03 : Regex :=
  rCats [rAlts [rlit "gpu", rlit "show", rlit "get", rlit "check"], ws0,
         rlit "temp", .opt (rlit "erature")]

/-- src/intent_classifier.py:42 gpu or rocm stats. -/
def p04 : Regex :=
  rCats [rAlts [rlit "gpu", rlit "rocm"], ws0,
         rAlts [statsWord, rlit "status", rlit "info"]]

/-- src/intent_classifier.py:45 verb then gpu or rocm with optional stats. -/
def p05 : Regex :=
  rCats [sgc, ws0, rAlts [rlit "gpu", rlit "rocm"],
         .opt (rCats [ws0, rAlts [statsWord, rlit "status", rlit "info"]])]

/-- src/intent_classifier.py:49 git subcommand, action from group 1. -/
def p06 : Regex :=
  rCats [rlit "git", ws1,
         .grp 1 (rAlts [rlit "status", rlit "st", rlit "diff", rlit "log"])]

/-- src/intent_classifier.py:52 show or check git status. -/
def p07 : Regex :=
  rCats [rAlts [rlit "show", rlit "check"], ws0, .opt (rCats [rlit "git", ws0]),
         rAlts [rlit "status", rlit "changes", rlit "diff"]]

/-- src/intent_classifier.py:55 git commit with quoted message in group 1. -/
def p08 : Regex :=
  rCats [rlit "git", ws1, rlit "commit", ws1, rlit "-m", ws1, rlit "\"",
         .grp 1 (.plusC .notQuote), rlit "\""]

/-- src/intent_classifier.py:59 verb then rpm-ostree with optional status. -/
def p09 : Regex :=
  rCats [sgc, ws0, rAlts [rpmQOstree, rlit "ostree"], ws0, .opt (rlit "status")]

/-- src/intent_classifier.py:62 ostree status. -/
def p10 : Regex :=
  rCats [rAlts [rlit "ostree", rpmQOstree], ws0, rlit "status"]

/-- src/intent_classifier.py:65 check or show system updates. -/
def p11 : Regex :=
  rCats [rAlts [rlit "check", rlit "show"], ws0, .opt (rCats [rlit "system", ws0]),
         rlit "update", .opt (rlit "s")]

/-- src/intent_classifier.py:68 rpm-ostree check updates. -/
def p12 : Regex :=
  rCats [rAlts [rpmQOstree, rlit "ostree"], ws0, rAlts [rlit "check", rlit "show"],
         ws0, rlit "update", .opt (rlit "s")]

/-- src/intent_classifier.py:71 layered packages. -/
def p13 : Regex :=
  rCats [slg, ws0, rlit "layered", ws0, rlit "package", .opt (rlit "s")]

/-- src/intent_classifier.py:74 flatpaks with optional apps suffix. -/
def p14 : Regex :=
  rCats [slg, ws0, rlit "flatpak", .opt (rlit "s"),
         .opt (rCats [ws0, rlit "app", .opt (rlit "s")])]

/-- src/intent_classifier.py:77 flatpak updates. -/
def p15 : Regex :=
  rCats [rAlts [rlit "check", rlit "show"], ws0, rlit "flatpak", ws0,
         rlit "update", .opt (rlit "s")]

/-- src/intent_classifier.py:80 toolboxes. -/
def p16 : Regex := rCats [slg, ws0, rlit "toolbox", .opt (rlit "es")]

/-- src/intent_classifier.py:83 distrobox or toolbox containers. -/
def p17 : Regex :=
  rCats [slg, ws0, rAlts [rlit "distrobox", rlit "toolbox"], ws0,
         .opt (rAlts [rCats [rlit "container", .opt (rlit "s")], rlit "list"])]

/-- src/intent_classifier.py:87 read file, path in group 1. -/
def p18 : Regex :=
  rCats [rAlts [rlit "read", rlit "show", rlit "cat"], ws1,
         .opt (rCats [rlit "file", ws1]), .grp 1 dotPlus]

/-- src/intent_classifier.py:90 write file, path in group 1. -/
def p19 : Regex :=
  rCats [rAlts [rlit "write", rlit "create"], ws1,
         .opt (rCats [rlit "file", ws1]), .grp 1 dotPlus]

/-- src/intent_classifier.py:93 list directory, path in group 1. -/
def p20 : Regex :=
  rCats [rAlts [rlit "list", rlit "ls"], ws1, .grp 1 dotPlus]

/-- src/intent_classifier.py:96 search, lazy pattern group, optional
location clause with group 2. -/
def p21 : Regex :=
  rCats [rAlts [rlit "find", rlit "search"], ws1, .opt (rCats [rlit "for", ws1]),
         .grp 1 dotPlusLazy, .opt (rCats [ws1, rlit "in", ws1, .grp 2 dotPlus])]

/-- src/intent_classifier.py:103 memory usage. -/
def p22 : Regex :=
  rCats [sgc, ws0, rAlts [rlit "mem", rlit "memory", rlit "ram"],
         .opt (rCats [ws0, rlit "usage"])]

/-- src/intent_classifier.py:106 disk usage. -/
def p23 : Regex :=
  rCats [sgc, ws0, rAlts [rlit "disk", rlit "space", rlit "storage"],
         .opt (rCats [ws0, rlit "usage"])]

/-- src/intent_classifier.py:109 systemctl status, service in group 1. -/
def p24 : Regex :=
  rCats [rAlts [rlit "systemctl", rlit "service"], ws1, rlit "status", ws1,
         .grp 1 dotPlus]

/-- src/intent_classifier.py:112 is service running, lazy group 1. -/
def p25 : Regex :=
  rCats [rAlts [rlit "check", rlit "is"], ws1, .grp 1 dotPlusLazy, ws1,
         rAlts [rlit "running", rlit "active"]]

/-- src/intent_classifier.py:115 logs with optional filter in group 1. -/
def p26 : Regex :=
  rCats [sgc, ws0, .opt (rAlts [rlit "system", rlit "systemd"]), ws0,
         rAlts [rCats [rlit "log", .opt (rlit "s")], rlit "journal"],
         .opt (rCats [ws0, rAlts [rlit "for", rlit "from"]]), ws0, .grp 1 dotStar]

/-- src/intent_classifier.py:118 list services. -/
def p27 : Regex :=
  rCats [rAlts [rlit "list", rlit "show"], ws0, .opt (rCats [rlit "all", ws0]),
         rlit "services"]

/-- src/intent_classifier.py:121 show processes. -/
def p28 : Regex :=
  rCats [rAlts [rlit "show", rlit "get", rlit "check", rlit "list"], ws0,
         rAlts [rCats [rlit "processe", .opt (rlit "s")],
                rCats [rlit "proc", .opt (rlit "s")]],
         .opt (rCats [ws0, rlit "list"])]

/-- src/intent_classifier.py:125 build with optional target in group 1. -/
def p29 : Regex :=
  rCats [rAlts [rlit "build", rlit "compile", rlit "make"],
         .opt (rCats [ws1, .grp 1 dotPlus])]

/-- src/intent_classifier.py:128 cmake with args in group 1. -/
def p30 : Regex := rCats [rlit "cmake", ws1, .grp 1 dotPlus]

/-- src/intent_classifier.py:132 is package installed, lazy group 1. -/
def p31 : Regex :=
  rCats [rAlts [rlit "is", rlit "check"], ws1, .grp 1 dotPlusLazy, ws1,
         rlit "installed"]

/-- src/intent_classifier.py:135 pip show, package in group 1. -/
def p32 : Regex := rCats [rlit "pip", ws1, rlit "show", ws1, .grp 1 dotPlus]

/-- src/intent_classifier.py:139 ps with optional filter in group 1. -/
def p33 : Regex :=
  rCats [rAlts [rlit "show", rlit "list", rlit "ps"], ws0,
         .opt (rCats [rlit "processe", .opt (rlit "s")]),
         .opt (rCats [ws1, .grp 1 dotPlus])]

/-- src/intent_classifier.py:143 port check, digits in group 1. -/
def p34 : Regex :=
  rCats [rAlts [rlit "port", rlit "check"], ws1, .grp 1 (.plusC .digit)]

/-- IntentClassifier.PATTERNS (src/intent_classifier.py:27-147), in source
order: the order is load-bearing and is preserved exactly. -/
def PATTERNS : List PatternEntry :=
  [⟨p01, "gpu", .fixed "vram", .emptyE⟩,
   ⟨p02, "gpu", .fixed "vram", .emptyE⟩,
   ⟨p03, "gpu", .fixed "temp", .emptyE⟩,
   ⟨p04, "gpu", .fixed "stats", .emptyE⟩,
   ⟨p05, "gpu", .fixed "stats", .emptyE⟩,
   ⟨p06, "git", .fromG1, .emptyE⟩,
   ⟨p07, "git", .fixed "status", .emptyE⟩,
   ⟨p08, "git", .fixed "commit", .messageG1⟩,
   ⟨p09, "atomic", .fixed "ostree_status", .emptyE⟩,
   ⟨p10, "atomic", .fixed "ostree_status", .emptyE⟩,
   ⟨p11, "atomic", .fixed "check_updates", .emptyE⟩,
   ⟨p12, "atomic", .fixed "check_updates", .emptyE⟩,
   ⟨p13, "atomic", .fixed "layered_packages", .emptyE⟩,
   ⟨p14, "atomic", .fixed "flatpaks", .emptyE⟩,
   ⟨p15, "atomic", .fixed "flatpak_updates", .emptyE⟩,
   ⟨p16, "atomic", .fixed "toolboxes", .emptyE⟩,
   ⟨p17, "atomic", .fixed "toolboxes", .emptyE⟩,
   ⟨p18, "file", .fixed "read", .pathG1⟩,
   ⟨p19, "file", .fixed "write", .pathG1⟩,
   ⟨p20, "file", .fixed "list", .pathG1⟩,
   ⟨p21, "file", .fixed "search", .searchE⟩,
   ⟨p22, "system", .fixed "memory", .emptyE⟩,
   ⟨p23, "system", .fixed "disk", .emptyE⟩,
   ⟨p24, "system", .fixed "service_status", .serviceG1⟩,
   ⟨p25, "system", .fixed "service_status", .serviceG1⟩,
   ⟨p26, "system", .fixed "logs", .filterOptG1⟩,
   ⟨p27, "system", .fixed "list_services", .emptyE⟩,
   ⟨p28, "system", .fixed "processes", .emptyE⟩,
   ⟨p29, "build", .fixed "ninja", .targetG1⟩,
   ⟨p30, "build", .fixed "cmake", .argsG1⟩,
   ⟨p31, "package", .fixed "check", .packageG1⟩,
   ⟨p32, "package", .fixed "info", .packageG1⟩,
   ⟨p33, "process", .fixed "list", .filterOptG1⟩,
   ⟨p34, "network", .fixed "port_check", .portG1⟩]

/-- Build the Intent a matching entry produces
(src/intent_classifier.py:166-176). -/
def applyEntry (e : PatternEntry) (caps : Caps) : Intent :=
  ⟨e.category, applyAction e.action caps, applyExtract e.extract caps⟩

/-- The classifier loop (src/intent_classifier.py:163-178): first matching
entry wins, later entries are not consulted. -/
def classifyFrom : List PatternEntry → String → Option Intent
  | [], _ => none
  | e :: rest, q =>
    match e.regex.fullMatch q with
    | some caps => some (applyEntry e caps)
    | none => classifyFrom rest q

/-- IntentClassifier.classify (src/intent_classifier.py:156-178): strip
the query, then scan the table in order. -/
def classify (q : String) : Option Intent :=
  classifyFrom PATTERNS (pyStrip q)

/-- IntentClassifier.should_use_llm (src/intent_classifier.py:180-186). -/
def shouldUseLLM (q : String) : Bool :=
  (classify q).isNone

/-!
The dispatch router (src/rai.py).  The category handlers other than the
gpu one, and the three gpu formatting functions, are taken as parameters:
the properties below concern only the routing and error flow of
process_query (src/rai.py:118-129) and _handle_gpu_intent
(src/rai.py:175-191), not the rendering of successful results.  The wire
passed around is the stream pair of the one peer the query addresses.
-/

/-- The type of a category handler of _execute_intent. -/
def Handler : Type :=
  MCPClient → PeerWire → Intent → Except PyError String × MCPClient × PeerWire

/-- The rocm-server tool selected by _handle_gpu_intent per action
(src/rai.py:179-191); unmatched actions default to the full stats tool. -/
def gpuToolName (action : String) : String :=
  if action == "stats" then "get_gpu_stats"
  else if action == "vram" then "get_vram"
  else if action == "temp" then "get_gpu_temp"
  else "get_gpu_stats"

/-- ROCmCLIAgent._handle_gpu_intent (src/rai.py:175-191): call the mapped
tool on the rocm server with empty arguments and format the result; a
raise from call_tool propagates. -/
def handleGpuIntent (fmtStats fmtVram fmtTemp : JVal → String) : Handler :=
  fun c wire intent =>
    if intent.action == "stats" then
      let t := c.callToolC "rocm" "get_gpu_stats" (.obj []) wire
      (t.1.map fmtStats, t.2)
    else if intent.action == "vram" then
      let t := c.callToolC "rocm" "get_vram" (.obj []) wire
      (t.1.map fmtVram, t.2)
    else if intent.action == "temp" then
      let t := c.callToolC "rocm" "get_gpu_temp" (.obj []) wire
      (t.1.map fmtTemp, t.2)
    else
      let t := c.callToolC "rocm" "get_gpu_stats" (.obj []) wire
      (t.1.map fmtStats, t.2)

/-- ROCmCLIAgent._execute_intent (src/rai.py:131-149): route to the
handler of the intent category, with the LLM fallback for the rest. -/
def executeIntent (fileH gitH systemH atomicH ublueH : Handler)
    (fmtStats fmtVram fmtTemp : JVal → String) (llm : String → String)
    (c : MCPClient) (wire : PeerWire) (intent : Intent) :
    Except PyError String × MCPClient × PeerWire :=
  if intent.category == "file" then fileH c wire intent
  else if intent.category == "gpu" then
    handleGpuIntent fmtStats fmtVram fmtTemp c wire intent
  else if intent.category == "git" then gitH c wire intent
  else if intent.category == "system" then systemH c wire intent
  else if intent.category == "atomic" then atomicH c wire intent
  else if intent.category == "ublue" then ublueH c wire intent
  else (.ok (llm ("Execute: " ++ intent.category ++ " " ++ intent.action)), c, wire)

/-- ROCmCLIAgent.process_query (src/rai.py:118-129): classify, then
either execute the intent or fall back to the LLM.  The llm parameter is
total, as _query_llm is (see queryLLM below): it returns a string in every
case.  No error recovery happens here: a raise from a handler propagates
to the caller of process_query. -/
def processQuery (fileH gitH systemH atomicH ublueH : Handler)
    (fmtStats fmtVram fmtTemp : JVal → String) (llm : String → String)
    (c : MCPClient) (wire : PeerWire) (q : String) :
    Except PyError String × MCPClient × PeerWire :=
  match classify q with
  | some intent =>
    executeIntent fileH gitH systemH atomicH ublueH fmtStats fmtVram fmtTemp
      llm c wire intent
  | none => (.ok (llm q), c, wire)

/-!
The LLM fallback (src/rai.py:439-497).  The prompt assembly before the
try block is pure string building and cannot fail on transport or parse
grounds; it is elided.  The HTTP round trip with its JSON decoding is one
external event, modelled by an Except: error e stands for any exception
raised by urlopen, read or json.loads (connection refused, timeout,
malformed JSON), with e the exception text; ok data stands for a decoded
response body.  All of it happens inside the try whose except catches
every Exception.
-/

/-- The message of the string returned by the except branch of _query_llm
(src/rai.py:496-497). -/
def llmErrorMsg (e : String) : String := "ERROR: LLM query failed: " ++ e

/-- The field access chain of src/rai.py:494,
data choices 0 message content, with the exception each step can raise;
all of them are Exceptions, so all are caught by the except branch. -/
def llmExtract (data : JVal) : Except String JVal :=
  match data.get? "choices" with
  | .none => .error "KeyError: choices"
  | some choices =>
    match choices with
    | .arr (c0 :: _) =>
      (match c0.get? "message" with
       | .none => .error "KeyError: message"
       | some msg =>
         match msg.get? "content" with
         | .none => .error "KeyError: content"
         | some content => .ok content)
    | .arr [] => .error "IndexError: list index out of range"
    | _ => .error "TypeError: value is not subscriptable"

/-- ROCmCLIAgent._query_llm (src/rai.py:439-497): the whole round trip
and extraction run inside try, and the except branch turns any Exception
into the ERROR string.  The returned value is the extracted content on
success (a string in practice, any JSON value in general). -/
def queryLLM (roundTrip : Except String JVal) : Except PyError JVal :=
  match roundTrip with
  | .error e => .ok (.str (llmErrorMsg e))
  | .ok data =>
    match llmExtract data with
    | .ok content => .ok content
    | .error e => .ok (.str (llmErrorMsg e))

/-!
Request traces over one peer connection, for the request-id invariant:
a trace is a list of outgoing operations (requests or notifications)
performed on one MCPServer object, in program order.
-/

/-- One outgoing operation on a peer connection. -/
inductive PeerOp : Type
  | req (method : String) (params : JVal)
  | notif (method : String) (params : JVal)

/-- Run a list of operations against a connection, threading the object
state and the wire exactly as the Python methods do (results and raises
per operation are irrelevant to the id invariant and are dropped). -/
def runOps : MCPServer → PeerWire → List PeerOp → MCPServer × PeerWire
  | srv, wire, [] => (srv, wire)
  | srv, wire, .req m p :: rest =>
    match sendRequestS srv wire m p with
    | (_, srv2, wire2) => runOps srv2 wire2 rest
  | srv, wire, .notif m p :: rest =>
    match sendNotificationS srv wire m p with
    | (_, srv2, wire2) => runOps srv2 wire2 rest

/-- How many requests a trace contains. -/
def countReqs : List PeerOp → Nat
  | [] => 0
  | .req _ _ :: rest => countReqs rest + 1
  | .notif _ _ :: rest => countReqs rest

/-- The id fields of the lines written to a peer, in order: requests carry
a numeric id, notifications carry none. -/
def writtenIds (lines : List JVal) : List Nat :=
  lines.filterMap (fun v =>
    match v.get? "id" with
    | some (.num (Int.ofNat n)) => some n
    | _ => Option.none)

/-!
Concrete fixtures used by witnesses and counterexamples.
-/

/-- A server config with the given name. -/
def cfg (name : String) : MCPServerConfig :=
  { name := name, command := "cmd", args := [] }

/-- A catalog entry for a tool called echo. -/
def echoTool : JVal := .obj [("name", .str "echo")]

/-- A started connection with the given name, catalog and counter. -/
def mkSrv (name : String) (tools : List JVal) (rid : Nat) : MCPServer :=
  { config := cfg name, started := true, tools := tools, requestId := rid }

/-- A wire with nothing readable and nothing written. -/
def wireEmpty : PeerWire := { incoming := [], written := [] }

/-- A well-formed result line for the initialize request. -/
def okResp : JVal :=
  .obj [("jsonrpc", .str "2.0"), ("id", .num 1), ("result", .obj [])]

/-- A well-formed result line for the tools/list request (empty catalog). -/
def toolsResp : JVal :=
  .obj [("jsonrpc", .str "2.0"), ("id", .num 2),
        ("result", .obj [("tools", .arr [])])]

/-- A wire holding a full successful handshake. -/
def handshakeWire : PeerWire := { incoming := [okResp, toolsResp], written := [] }

/-- A registry of two started peers a and b. -/
def c2ex : MCPClient := ⟨[("a", mkSrv "a" [] 0), ("b", mkSrv "b" [] 0)]⟩

/-- A stop environment in which peer a fails to terminate in time. -/
def clean2 : String → Bool := fun n => n != "a"

/-- A registry already holding a connection named filesystem, with a
distinctive counter value. -/
def c3ex : MCPClient := ⟨[("filesystem", mkSrv "filesystem" [echoTool] 5)]⟩

/-- A tools/call response line with id 999, unrelated to any request id
this connection ever sends. -/
def respWrongId : JVal :=
  .obj [("jsonrpc", .str "2.0"), ("id", .num 999),
        ("result", .obj [("content",
          .arr [.obj [("type", .str "text"), ("text", .str "hi")]])])]

/-- The wire on which that stray response is the next readable line. -/
def wireWrongId : PeerWire := { incoming := [respWrongId], written := [] }

/-- The trace of a startup handshake: initialize, the initialized
notification, tools/list. -/
def opsEx : List PeerOp :=
  [.req "initialize" initializeParams, .notif "initialized" (.obj []),
   .req "tools/list" (.obj [])]

/-- A registry of three peers of which the second and third both expose
the echo tool. -/
def c8ex : MCPClient :=
  ⟨[("a", mkSrv "a" [] 0), ("b", mkSrv "b" [echoTool] 0),
    ("c", mkSrv "c" [echoTool] 0)]⟩

/-- A category handler that always succeeds (stands in for the handlers
not under scrutiny). -/
def okHandler : Handler := fun c wire _ => (.ok "", c, wire)

/-- A trivial formatter. -/
def fmtNull : JVal → String := fun _ => ""

/-- A trivial LLM collaborator. -/
def llmId : String → String := fun q => q

/-- A registry holding no rocm server. -/
def cNoRocm : MCPClient := ⟨[]⟩

/-- A registry whose rocm server is started but whose stream is at EOF. -/
def cRocmEof : MCPClient := ⟨[("rocm", mkSrv "rocm" [] 0)]⟩

/-!
Theorems.  Each claim of the review gets exactly one main theorem below,
with a witness instantiation when the theorem carries hypotheses and a
closed counterexample when the reviewed statement fails on the code.
-/

/-- The stop loop with only clean stops reaches every server. -/
theorem stopSweep_all_ok (l : List (String × MCPServer)) (clean : String → Bool)
    (h : ∀ q ∈ l, q.2.stop (clean q.1) = .ok ()) :
    stopSweep l clean = (l.map Prod.fst, Option.none) := by
  induction l with
  | nil => rfl
  | cons p rest ih =>
    have hp := h p (List.mem_cons_self p rest)
    have hrest := ih (fun q hq => h q (List.mem_cons_of_mem p hq))
    simp [stopSweep, hp, hrest]

/-- The stop loop aborts at the first failing stop. -/
theorem stopSweep_abort (l₁ : List (String × MCPServer)) (p : String × MCPServer)
    (l₂ : List (String × MCPServer)) (clean : String → Bool) (e : PyError)
    (h₁ : ∀ q ∈ l₁, q.2.stop (clean q.1) = .ok ())
    (hp : p.2.stop (clean p.1) = .error e) :
    stopSweep (l₁ ++ p :: l₂) clean = (l₁.map Prod.fst ++ [p.1], some e) := by
  induction l₁ with
  | nil => simp [stopSweep, hp]
  | cons q rest ih =>
    have hq := h₁ q (List.mem_cons_self q rest)
    have hrest := ih (fun r hr => h₁ r (List.mem_cons_of_mem q hr))
    simp [stopSweep, hq, hrest]

/-- C2 counterexample: in a registry of two started peers where stopping
the first raises, stop_all raises at once; the second peer's stop is never
attempted, contradicting the reviewed statement that a failure does not
prevent the stop attempt on the remaining peers. -/
theorem stopAll_aborts_counterexample :
    c2ex.servers.length = 2
    ∧ c2ex.stopAll clean2 = (["a"], some (.stopTimeout "a"))
    ∧ "b" ∉ (c2ex.stopAll clean2).1 := by
  refine ⟨rfl, rfl, ?_⟩
  decide

/-- C2 (amended): stop_all stops the registered peers in registration
order; when every stop returns cleanly it reaches them all, but a raise
from one stop propagates immediately and the later-registered peers are
not stopped. -/
theorem stopAll_stops_prefix_until_failure :
    (∀ (c : MCPClient) (clean : String → Bool),
      (∀ q ∈ c.servers, q.2.stop (clean q.1) = .ok ()) →
      c.stopAll clean = (c.servers.map Prod.fst, Option.none))
    ∧ (∀ (c : MCPClient) (clean : String → Bool)
         (l₁ : List (String × MCPServer)) (p : String × MCPServer)
         (l₂ : List (String × MCPServer)) (e : PyError),
      c.servers = l₁ ++ p :: l₂ →
      (∀ q ∈ l₁, q.2.stop (clean q.1) = .ok ()) →
      p.2.stop (clean p.1) = .error e →
      c.stopAll clean = (l₁.map Prod.fst ++ [p.1], some e)) := by
  constructor
  · intro c clean h
    exact stopSweep_all_ok c.servers clean h
  · intro c clean l₁ p l₂ e hs h₁ hp
    unfold MCPClient.stopAll
    rw [hs]
    exact stopSweep_abort l₁ p l₂ clean e h₁ hp

/-- C2 witness: the amended theorem applied to the two-peer registry. -/
theorem stopAll_stops_prefix_until_failure_witness :
    c2ex.stopAll clean2 = (["a"], some (.stopTimeout "a")) :=
  stopAll_stops_prefix_until_failure.2 c2ex clean2 []
    ("a", mkSrv "a" [] 0) [("b", mkSrv "b" [] 0)] (.stopTimeout "a")
    rfl (by intro q hq; cases hq) rfl

/-- C3 counterexample: add_server called with the name of an already
registered server succeeds (no duplicate-server error) and replaces the
registry entry under that name — the old connection, whose counter was 5,
is gone and the freshly started one, whose counter is 2 after the
handshake, stands in its place. -/
theorem addServer_duplicate_counterexample :
    (c3ex.addServer (cfg "filesystem") handshakeWire).1 = .ok ()
    ∧ (c3ex.addServer (cfg "filesystem") handshakeWire).2.1.servers.map
        (fun p => (p.1, p.2.requestId)) = [("filesystem", 2)]
    ∧ c3ex.servers.map (fun p => (p.1, p.2.requestId)) = [("filesystem", 5)] :=
  ⟨rfl, rfl, rfl⟩

/-- Replacing under a present key rewrites exactly that entry. -/
theorem dictSet_present (d : List (String × MCPServer)) (k : String)
    (v : MCPServer) (h : d.any (fun kv => kv.1 == k) = true) :
    dictSet d k v = d.map (fun kv => if kv.1 == k then (k, v) else kv) := by
  simp [dictSet, h]

/-- C3 (amended): add_server performs no duplicate check.  When the
config name is already registered and the fresh connection starts
successfully, the call returns normally and overwrites the registry entry
under that name with the new connection, keeping every other entry and
the registration order intact. -/
theorem addServer_replaces_duplicate (c : MCPClient) (config : MCPServerConfig)
    (wire : PeerWire)
    (hdup : c.servers.any (fun kv => kv.1 == config.name) = true)
    (hstart : ((MCPServer.init config).start wire).1 = .ok ()) :
    (c.addServer config wire).1 = .ok ()
    ∧ (c.addServer config wire).2.1.servers
        = c.servers.map (fun kv =>
            if kv.1 == config.name
            then (config.name, ((MCPServer.init config).start wire).2.1)
            else kv) := by
  unfold MCPClient.addServer
  rcases hs : (MCPServer.init config).start wire with ⟨r, srv, wire2⟩
  rw [hs] at hstart
  cases r with
  | error e => cases hstart
  | ok u =>
    refine ⟨rfl, ?_⟩
    simp [dictSet_present c.servers config.name srv hdup, hs]

/-- C3 witness: the amended theorem applied to the duplicate filesystem
registration. -/
theorem addServer_replaces_duplicate_witness :
    (c3ex.addServer (cfg "filesystem") handshakeWire).1 = .ok ()
    ∧ (c3ex.addServer (cfg "filesystem") handshakeWire).2.1.servers
        = c3ex.servers.map (fun kv =>
            if kv.1 == (cfg "filesystem").name
            then ((cfg "filesystem").name,
                  ((MCPServer.init (cfg "filesystem")).start handshakeWire).2.1)
            else kv) :=
  addServer_replaces_duplicate c3ex (cfg "filesystem") handshakeWire rfl rfl

/-- C4 counterexample: the request id just sent is 1 (the counter moved
from 0 to 1), yet the response line carrying id 999 is accepted and its
content returned — call_tool never compares the response id with the
request id, contradicting the reviewed statement that the response is
accepted only if its id equals the request id. -/
theorem callTool_accepts_mismatched_id :
    ((mkSrv "rocm" [echoTool] 0).callToolS wireWrongId "echo" (.obj [])).1
      = .ok (.arr [.obj [("type", .str "text"), ("text", .str "hi")]])
    ∧ ((mkSrv "rocm" [echoTool] 0).callToolS wireWrongId "echo" (.obj [])).2.1.requestId = 1
    ∧ respWrongId.get? "id" = some (.num 999) :=
  ⟨rfl, rfl, rfl⟩

/-- C4 (amended): on a started connection, call_tool writes exactly one
tools/call request carrying the incremented counter as id, reads exactly
one response line and accepts it without comparing its id to the request
id; a response with an error member raises, EOF raises, and otherwise the
content member of the result is returned, defaulting to the empty array
when the result has no content member. -/
theorem callTool_one_request_one_response (srv : MCPServer) (wire : PeerWire)
    (t : String) (args : JVal) (hst : srv.started = true) :
    (∀ resp rest, wire.incoming = resp :: rest →
       (∀ e, resp.get? "error" = some e →
          srv.callToolS wire t args
            = (.error (.mcpError e),
               { srv with requestId := srv.requestId + 1 },
               { incoming := rest,
                 written := wire.written
                   ++ [reqJson (srv.requestId + 1) "tools/call"
                        (toolsCallParams t args)] }))
       ∧ (resp.get? "error" = Option.none →
          srv.callToolS wire t args
            = (.ok ((resp.getD "result" (.obj [])).getD "content" (.arr [])),
               { srv with requestId := srv.requestId + 1 },
               { incoming := rest,
                 written := wire.written
                   ++ [reqJson (srv.requestId + 1) "tools/call"
                        (toolsCallParams t args)] })))
    ∧ (wire.incoming = [] →
       srv.callToolS wire t args
         = (.error (.closedConnection srv.config.name),
            { srv with requestId := srv.requestId + 1 },
            { incoming := [],
              written := wire.written
                ++ [reqJson (srv.requestId + 1) "tools/call"
                     (toolsCallParams t args)] })) := by
  constructor
  · intro resp rest hin
    constructor
    · intro e he
      simp [MCPServer.callToolS, sendRequestS, hst, responseResult, hin, he]
    · intro he
      simp [MCPServer.callToolS, sendRequestS, hst, responseResult, hin, he,
            JVal.getD]
  · intro hin
    simp [MCPServer.callToolS, sendRequestS, hst, responseResult, hin]

/-- C4 witness: the amended theorem applied to the stray-id response. -/
theorem callTool_one_request_one_response_witness :
    (mkSrv "rocm" [echoTool] 0).callToolS wireWrongId "echo" (.obj [])
      = (.ok ((respWrongId.getD "result" (.obj [])).getD "content" (.arr [])),
         { mkSrv "rocm" [echoTool] 0 with requestId := 0 + 1 },
         { incoming := [],
           written := wireEmpty.written
             ++ [reqJson (0 + 1) "tools/call" (toolsCallParams "echo" (.obj []))] }) :=
  (((callTool_one_request_one_response (mkSrv "rocm" [echoTool] 0) wireWrongId
      "echo" (.obj []) rfl).1 respWrongId [] rfl).2 rfl)

/-- The lines written by a concatenation of traffic split at the seam. -/
theorem writtenIds_append (a b : List JVal) :
    writtenIds (a ++ b) = writtenIds a ++ writtenIds b := by
  simp [writtenIds]

/-- A request line carries its id field. -/
theorem reqJson_id (rid : Nat) (m : String) (p : JVal) :
    (reqJson rid m p).get? "id" = some (.num rid) := rfl

/-- A notification line carries no id field. -/
theorem notifJson_id (m : String) (p : JVal) :
    (notifJson m p).get? "id" = Option.none := rfl

/-- Running a trace from a started connection with counter k writes the
ids k+1, k+2, ... in order, one per request, none per notification. -/
theorem runOps_writtenIds (ops : List PeerOp) :
    ∀ (srv : MCPServer) (wire : PeerWire), srv.started = true →
    writtenIds ((runOps srv wire ops).2.written)
      = writtenIds wire.written
        ++ List.range' (srv.requestId + 1) (countReqs ops) := by
  induction ops with
  | nil => intro srv wire _; simp [runOps, countReqs]
  | cons op rest ih =>
    intro srv wire hst
    cases op with
    | req m p =>
      have h2 := ih { srv with requestId := srv.requestId + 1 }
        { wire with
            written := wire.written ++ [reqJson (srv.requestId + 1) m p],
            incoming := wire.incoming.drop 1 } hst
      simp only [runOps, sendRequestS, hst, if_true] at h2 ⊢
      rw [h2, writtenIds_append]
      have hone : writtenIds [reqJson (srv.requestId + 1) m p]
          = [srv.requestId + 1] := rfl
      rw [hone, countReqs, List.range'_succ]
      simp
    | notif m p =>
      have h2 := ih srv
        { wire with written := wire.written ++ [notifJson m p] } hst
      simp only [runOps, sendNotificationS, hst, if_true] at h2 ⊢
      rw [h2, writtenIds_append]
      have hnone : writtenIds [notifJson m p] = [] := rfl
      rw [hnone, countReqs]
      simp

/-- C7: the request-sequence counter of a connection starts at 0; every
request increments it by exactly one and carries the incremented value as
its id; notifications leave the connection state untouched and carry no
id; hence over any whole-lifetime trace the ids written are exactly
1, 2, ..., n for the n requests of the trace — pairwise strictly
increasing and without duplicates. -/
theorem requestId_monotone_discipline :
    (∀ config, (MCPServer.init config).requestId = 0)
    ∧ (∀ (srv : MCPServer) (wire : PeerWire) (m : String) (p : JVal),
        srv.started = true →
        (sendRequestS srv wire m p).2.1.requestId = srv.requestId + 1
        ∧ (sendRequestS srv wire m p).2.2.written
            = wire.written ++ [reqJson (srv.requestId + 1) m p])
    ∧ (∀ (srv : MCPServer) (wire : PeerWire) (m : String) (p : JVal),
        (sendNotificationS srv wire m p).2.1 = srv
        ∧ (notifJson m p).get? "id" = Option.none)
    ∧ (∀ (srv : MCPServer) (wire : PeerWire) (ops : List PeerOp),
        srv.started = true →
        writtenIds ((runOps srv wire ops).2.written)
          = writtenIds wire.written
            ++ List.range' (srv.requestId + 1) (countReqs ops))
    ∧ (∀ (config : MCPServerConfig) (wire : PeerWire) (ops : List PeerOp),
        wire.written = [] →
        writtenIds ((runOps { MCPServer.init config with started := true }
            wire ops).2.written) = List.range' 1 (countReqs ops)
        ∧ (writtenIds ((runOps { MCPServer.init config with started := true }
            wire ops).2.written)).Pairwise (· < ·)
        ∧ (writtenIds ((runOps { MCPServer.init config with started := true }
            wire ops).2.written)).Nodup) := by
  refine ⟨fun _ => rfl, ?_, ?_, ?_, ?_⟩
  · intro srv wire m p hst
    constructor
    · simp [sendRequestS, hst]
    · simp [sendRequestS, hst]
  · intro srv wire m p
    constructor
    · cases hst : srv.started <;> simp [sendNotificationS, hst]
    · rfl
  · intro srv wire ops hst
    exact runOps_writtenIds ops srv wire hst
  · intro config wire ops hw
    have h := runOps_writtenIds ops
      { MCPServer.init config with started := true } wire rfl
    rw [hw] at h
    have h0 : writtenIds ([] : List JVal) = [] := rfl
    rw [h0, List.nil_append] at h
    have hinit : ({ MCPServer.init config with started := true } :
        MCPServer).requestId = 0 := rfl
    rw [hinit] at h
    refine ⟨h, ?_, ?_⟩
    · rw [h]; exact List.pairwise_lt_range' 1 (countReqs ops)
    · rw [h]; exact List.nodup_range' 1 (countReqs ops)

/-- C7 witness: the handshake trace from a fresh connection uses exactly
the ids 1 and 2, and a single request moves the counter from 0 to 1. -/
theorem requestId_monotone_discipline_witness :
    writtenIds ((runOps { MCPServer.init (cfg "rocm") with started := true }
        wireEmpty opsEx).2.written) = [1, 2]
    ∧ (sendRequestS (mkSrv "a" [] 0) wireEmpty "tools/list" (.obj [])).2.1.requestId
        = 1 := by
  have h := requestId_monotone_discipline
  constructor
  · have h5 := (h.2.2.2.2 (cfg "rocm") wireEmpty opsEx rfl).1
    simpa using h5
  · have h2 := (h.2.1 (mkSrv "a" [] 0) wireEmpty "tools/list" (.obj []) rfl).1
    simpa using h2

/-- A linear scan returns the element at the first index where the
predicate holds. -/
theorem find?_first {α : Type} (pfn : α → Bool) :
    ∀ (l : List α) (i : Nat) (hi : i < l.length),
      pfn (l.get ⟨i, hi⟩) = true →
      (∀ j (hj : j < l.length), j < i → pfn (l.get ⟨j, hj⟩) = false) →
      l.find? pfn = some (l.get ⟨i, hi⟩)
  | [], i, hi, _, _ => absurd hi (by simp)
  | a :: l, 0, h0, hpi, _ => by
    have ha : pfn a = true := hpi
    exact List.find?_cons_of_pos l ha
  | a :: l, Nat.succ k, hi, hpi, hfirst => by
    have ha : pfn a = false := hfirst 0 (by simp) (Nat.succ_pos k)
    rw [List.find?_cons_of_neg _ (by simp [ha])]
    exact find?_first pfn l k (Nat.lt_of_succ_lt_succ hi) hpi
      (fun j hj hji => hfirst (j + 1) (Nat.succ_lt_succ hj) (Nat.succ_lt_succ hji))

/-- C8: find_tool scans the registered peers in registration order and
returns the pair of the first peer whose catalog contains the tool name;
an equally named tool on a later-registered peer is shadowed.  The
well-formedness hypothesis (every catalog entry carries a name member, as
tools/list discovery provides) pins the model to the Python code, whose
tool access by the name key would otherwise raise. -/
theorem findTool_first_registration_order (c : MCPClient) (t : String)
    (i : Nat) (hi : i < c.servers.length)
    (_hwf : ∀ p ∈ c.servers, ∀ tool ∈ p.2.tools, (tool.get? "name").isSome = true)
    (hhas : (c.servers.get ⟨i, hi⟩).2.hasTool t = true)
    (hfirst : ∀ j (hj : j < c.servers.length), j < i →
      (c.servers.get ⟨j, hj⟩).2.hasTool t = false) :
    c.findTool t = some ((c.servers.get ⟨i, hi⟩).1, t) := by
  unfold MCPClient.findTool
  rw [find?_first (fun p => p.2.hasTool t) c.servers i hi hhas hfirst]
  rfl

/-- C8 witness: with the echo tool on the second and third registered
peers, find_tool answers with the second. -/
theorem findTool_first_registration_order_witness :
    c8ex.findTool "echo" = some ("b", "echo") :=
  findTool_first_registration_order c8ex "echo" 1 (by decide)
    (by decide) rfl
    (by intro j hj hji; interval_cases j; rfl)

/-- C10: call_tool performs no local validation of the tool name against
the stored catalog.  First, its outcome does not depend on the catalog at
all; second, on a started connection the tools/call request is always
written, for any name whatever, and the only possible failures are the
peer-originated ones (EOF or a JSON-RPC error response) — there is no
client-side unknown-tool raise before the request goes out; third, the
registry-level call_tool checks only the server name and otherwise
forwards verbatim. -/
theorem callTool_no_local_validation :
    (∀ (srv : MCPServer) (wire : PeerWire) (t : String) (args : JVal)
       (tools2 : List JVal),
      (MCPServer.callToolS { srv with tools := tools2 } wire t args).1
        = (srv.callToolS wire t args).1)
    ∧ (∀ (srv : MCPServer) (wire : PeerWire) (t : String) (args : JVal),
        srv.started = true →
        (srv.callToolS wire t args).2.2.written
          = wire.written
            ++ [reqJson (srv.requestId + 1) "tools/call" (toolsCallParams t args)]
        ∧ ∀ e, (srv.callToolS wire t args).1 = .error e →
            e = .closedConnection srv.config.name ∨ ∃ ev, e = .mcpError ev)
    ∧ (∀ (c : MCPClient) (sn t : String) (args : JVal) (wire : PeerWire)
         (p : String × MCPServer),
        c.servers.find? (fun q => q.1 == sn) = some p →
        (MCPClient.callToolC c sn t args wire).1 = (p.2.callToolS wire t args).1) := by
  refine ⟨?_, ?_, ?_⟩
  · intro srv wire t args tools2
    cases hst : srv.started <;>
      cases hr : responseResult srv.config.name wire.incoming <;>
        simp [MCPServer.callToolS, sendRequestS, hst, hr]
  · intro srv wire t args hst
    constructor
    · cases hr : responseResult srv.config.name wire.incoming <;>
        simp [MCPServer.callToolS, sendRequestS, hst, hr]
    · intro e he
      cases hin : wire.incoming with
      | nil =>
        simp [MCPServer.callToolS, sendRequestS, hst, responseResult, hin] at he
        exact Or.inl he.symm
      | cons resp rest =>
        cases herr : resp.get? "error" with
        | none =>
          simp [MCPServer.callToolS, sendRequestS, hst, responseResult, hin,
                herr] at he
        | some ev =>
          simp [MCPServer.callToolS, sendRequestS, hst, responseResult, hin,
                herr] at he
          exact Or.inr ⟨ev, he.symm⟩
  · intro c sn t args wire p hfind
    unfold MCPClient.callToolC
    rw [hfind]

/-- C10 witness: a name absent from the catalog (the catalog is empty) is
forwarded and the stray response is still consumed and answered. -/
theorem callTool_no_local_validation_witness :
    ((mkSrv "rocm" [] 0).callToolS wireWrongId "no_such_tool" (.obj [])).2.2.written
      = wireWrongId.written
        ++ [reqJson (0 + 1) "tools/call" (toolsCallParams "no_such_tool" (.obj []))]
    ∧ ((mkSrv "rocm" [echoTool] 0).callToolS wireWrongId "echo" (.obj [])).1
        = ((mkSrv "rocm" [] 0).callToolS wireWrongId "echo" (.obj [])).1 := by
  constructor
  · exact (callTool_no_local_validation.2.1 (mkSrv "rocm" [] 0) wireWrongId
      "no_such_tool" (.obj []) rfl).1
  · exact (callTool_no_local_validation.1 (mkSrv "rocm" [echoTool] 0) wireWrongId
      "echo" (.obj []) []).symm

/-- C9: _query_llm is total: whatever the HTTP round trip or the decoded
body does — transport failure, non-JSON body, missing choices, empty
choices, missing message or content — the function returns a value and
never lets an exception escape; on any such failure the value is the
ERROR string built from the exception text. -/
theorem queryLLM_never_raises :
    (∀ roundTrip, ∃ v, queryLLM roundTrip = .ok v)
    ∧ (∀ e, queryLLM (.error e) = .ok (.str (llmErrorMsg e)))
    ∧ (∀ data, llmExtract data = .error "KeyError: choices" →
        queryLLM (.ok data) = .ok (.str (llmErrorMsg "KeyError: choices"))) := by
  refine ⟨?_, fun e => rfl, ?_⟩
  · intro rt
    cases rt with
    | error e => exact ⟨.str (llmErrorMsg e), rfl⟩
    | ok data =>
      cases h : llmExtract data with
      | ok content => exact ⟨content, by simp [queryLLM, h]⟩
      | error e => exact ⟨.str (llmErrorMsg e), by simp [queryLLM, h]⟩
  · intro data h
    simp [queryLLM, h]

/-- An error from the rocm call passes through the gpu handler. -/
theorem handleGpuIntent_error (fmtStats fmtVram fmtTemp : JVal → String)
    (c : MCPClient) (wire : PeerWire) (intent : Intent) (e : PyError)
    (hcall : (c.callToolC "rocm" (gpuToolName intent.action) (.obj []) wire).1
      = .error e) :
    (handleGpuIntent fmtStats fmtVram fmtTemp c wire intent).1 = .error e := by
  unfold handleGpuIntent
  unfold gpuToolName at hcall
  cases h1 : (intent.action == "stats") with
  | true => simp [h1] at hcall ⊢; rw [hcall]; rfl
  | false =>
    cases h2 : (intent.action == "vram") with
    | true => simp [h1, h2] at hcall ⊢; rw [hcall]; rfl
    | false =>
      cases h3 : (intent.action == "temp") with
      | true => simp [h1, h2, h3] at hcall ⊢; rw [hcall]; rfl
      | false => simp [h1, h2, h3] at hcall ⊢; rw [hcall]; rfl

/-- C1 counterexample: process_query does not catch the failure of the
underlying peer call.  With the query classified as a gpu intent, when
the rocm server is not registered (ValueError) or its stream is at EOF
(RuntimeError), process_query raises — its result is the exception, not a
user-facing error string. -/
theorem processQuery_does_not_catch_peer_errors :
    (processQuery okHandler okHandler okHandler okHandler okHandler fmtNull
        fmtNull fmtNull llmId cNoRocm wireEmpty "gpu stats").1
      = .error (.unknownServer "rocm")
    ∧ (processQuery okHandler okHandler okHandler okHandler okHandler fmtNull
        fmtNull fmtNull llmId cRocmEof wireEmpty "gpu stats").1
      = .error (.closedConnection "rocm") :=
  ⟨rfl, rfl⟩

/-- C1 (amended): when a query classifies to a gpu intent and the peer
call made for it fails, the exception propagates unchanged out of
process_query to its caller; process_query performs no error recovery,
and only the top-level callers of the program catch and print the
exception. -/
theorem processQuery_propagates_gpu_call_errors
    (fileH gitH systemH atomicH ublueH : Handler)
    (fmtStats fmtVram fmtTemp : JVal → String) (llm : String → String)
    (c : MCPClient) (wire : PeerWire) (q : String) (intent : Intent)
    (e : PyError)
    (hclass : classify q = some intent)
    (hcat : intent.category = "gpu")
    (hcall : (c.callToolC "rocm" (gpuToolName intent.action) (.obj []) wire).1
      = .error e) :
    (processQuery fileH gitH systemH atomicH ublueH fmtStats fmtVram fmtTemp
        llm c wire q).1 = .error e := by
  unfold processQuery
  rw [hclass]
  show (executeIntent fileH gitH systemH atomicH ublueH fmtStats fmtVram fmtTemp
      llm c wire intent).1 = .error e
  unfold executeIntent
  rw [hcat]
  simp only [show (("gpu" : String) == "file") = false from rfl,
             show (("gpu" : String) == "gpu") = true from rfl,
             Bool.false_eq_true, if_false, if_true]
  exact handleGpuIntent_error fmtStats fmtVram fmtTemp c wire intent e hcall

/-- C1 witness: the amended theorem applied to the gpu stats query
against a registry with no rocm peer. -/
theorem processQuery_propagates_gpu_call_errors_witness :
    (processQuery okHandler okHandler okHandler okHandler okHandler fmtNull
        fmtNull fmtNull llmId cNoRocm wireEmpty "gpu stats").1
      = .error (.unknownServer "rocm") :=
  processQuery_propagates_gpu_call_errors okHandler okHandler okHandler
    okHandler okHandler fmtNull fmtNull fmtNull llmId cNoRocm wireEmpty
    "gpu stats" ⟨"gpu", "stats", []⟩ (.unknownServer "rocm") rfl rfl rfl

/-- The classifier loop returns the entry at the first matching index. -/
theorem classifyFrom_first :
    ∀ (L : List PatternEntry) (s : String) (i : Nat) (hi : i < L.length)
      (caps : Caps),
      (L.get ⟨i, hi⟩).regex.fullMatch s = some caps →
      (∀ j (hj : j < L.length), j < i →
        (L.get ⟨j, hj⟩).regex.fullMatch s = Option.none) →
      classifyFrom L s = some (applyEntry (L.get ⟨i, hi⟩) caps)
  | [], _, i, hi, _, _, _ => absurd hi (by simp)
  | e :: L, s, 0, h0, caps, hm, _ => by
    have hm2 : e.regex.fullMatch s = some caps := hm
    simp [classifyFrom, hm2]
  | e :: L, s, Nat.succ k, hi, caps, hm, hfirst => by
    have he : e.regex.fullMatch s = Option.none :=
      hfirst 0 (by simp) (Nat.succ_pos k)
    simp only [classifyFrom, he]
    exact classifyFrom_first L s k (Nat.lt_of_succ_lt_succ hi) caps hm
      (fun j hj hji => hfirst (j + 1) (Nat.succ_lt_succ hj)
        (Nat.succ_lt_succ hji))

/-- C5: first match wins.  For every query, if the entry at index i of
the table matches the trimmed query and no earlier entry matches it, then
classify returns exactly the Intent produced by that entry — later
matching entries are never consulted. -/
theorem classify_first_match_wins (q : String) (i : Nat)
    (hi : i < PATTERNS.length) (caps : Caps)
    (hmatch : (PATTERNS.get ⟨i, hi⟩).regex.fullMatch (pyStrip q) = some caps)
    (hfirst : ∀ j (hj : j < PATTERNS.length), j < i →
      (PATTERNS.get ⟨j, hj⟩).regex.fullMatch (pyStrip q) = Option.none) :
    classify q = some (applyEntry (PATTERNS.get ⟨i, hi⟩) caps) :=
  classifyFrom_first PATTERNS (pyStrip q) i hi caps hmatch hfirst

/-- C5 witness: gpu stats is matched by the entry at index 3 and by no
earlier entry, and classify returns exactly that entry's Intent. -/
theorem classify_first_match_wins_witness :
    classify "gpu stats" = some (applyEntry (PATTERNS.get ⟨3, by decide⟩) {}) :=
  classify_first_match_wins "gpu stats" 3 (by decide) {} rfl
    (by intro j hj hji; interval_cases j <;> rfl)

/-- C6: the four reviewed classifications: a gpu stats query, a vram
query, a file read query with its path parameter, and a free-form math
query that no entry matches. -/
theorem classify_concrete_queries :
    classify "gpu stats" = some ⟨"gpu", "stats", []⟩
    ∧ classify "show gpu vram" = some ⟨"gpu", "vram", []⟩
    ∧ classify "read /tmp/test.txt"
        = some ⟨"file", "read", [("path", .s "/tmp/test.txt")]⟩
    ∧ classify "what is 15 factorial" = Option.none :=
  ⟨rfl, rfl, rfl, rfl⟩

/-- C9 witness: a transport failure and an empty-object body both come
back as the ERROR string, not as a raise. -/
theorem queryLLM_never_raises_witness :
    queryLLM (.error "Connection refused")
      = .ok (.str (llmErrorMsg "Connection refused"))
    ∧ queryLLM (.ok (.obj []))
      = .ok (.str (llmErrorMsg "KeyError: choices")) :=
  ⟨queryLLM_never_raises.2.1 "Connection refused",
   queryLLM_never_raises.2.2 (.obj []) rfl⟩
